import Mathlib

/-!
Shallow embedding of `src/torguapi/torguapi.py`.

The module is a response-formatting helper for a tabular-data HTTP API.
Python dicts with a fixed key set are embedded as structures with `Option`
fields; raising `TorguapiInvalidRequest` / `TorguapiError` is embedded as
`Except TorguapiErr`; Python `//` (floor division) is `Int.fdiv`;
`str.isnumeric` is modelled on decimal-digit strings; `json.dumps` is kept
symbolic by carrying the body as a `Json` tree.
-/

namespace Torguapi

/-- JSON values as built by the module (strings, integers, arrays, objects
with fields in insertion order). -/
inductive Json where
  | str (s : String)
  | num (n : Int)
  | arr (xs : List Json)
  | obj (fields : List (String × Json))

/-- The two exception classes: `TorguapiInvalidRequest` and the base
`TorguapiError` used for internal consistency errors. -/
inductive TorguapiErr where
  | invalidRequest (msg : String)
  | internalError (msg : String)
  deriving DecidableEq, Repr

/-- Python `str.isnumeric`, modelled on decimal-digit strings: true iff the
string is non-empty and all characters are digits. -/
def isnumeric (s : String) : Bool :=
  s.length > 0 && s.data.all Char.isDigit

/-- Python `int(...)` applied to a digit string. -/
def strToInt (s : String) : Int :=
  Int.ofNat (s.data.foldl (fun n c => 10 * n + (c.toNat - 48)) 0)

/-- The pagination context dict (`aux` / `page_params` in the source):
a mapping with keys drawn from page_size, page_number, page_count,
record_count. -/
structure Aux where
  page_size : Option Int := none
  page_number : Option Int := none
  page_count : Option Int := none
  record_count : Option Int := none
  deriving DecidableEq, Repr

/-- The query-parameter mapping, restricted to the two keys the parser
reads (`query_parameters.get("page_size")`, `.get("page_number")`). -/
structure QueryParams where
  page_size : Option String := none
  page_number : Option String := none
  deriving DecidableEq, Repr

/-- Embeds `torguapi_get_page_parameters(query_parameters)`: validates and
extracts page_size / page_number.  `page_size` defaults to `"100"`; a
non-numeric page_size, or one parsing below 1, raises
`TorguapiInvalidRequest`; a present non-numeric page_number raises
`TorguapiInvalidRequest`. -/
def torguapi_get_page_parameters (query_parameters : QueryParams) :
    Except TorguapiErr Aux :=
  let page_size := query_parameters.page_size.getD "100"
  let page_number := query_parameters.page_number
  if ¬ isnumeric page_size then
    .error (.invalidRequest s!"Invalid page_size {page_size}")
  else if strToInt page_size < 1 then
    .error (.invalidRequest s!"Invalid page_size {page_size}")
  else
    match page_number with
    | none => .ok { page_size := some (strToInt page_size) }
    | some pn =>
      if ¬ isnumeric pn then
        .error (.invalidRequest s!"Invalid page_number {pn}")
      else
        .ok { page_size := some (strToInt page_size),
              page_number := some (strToInt pn) }

/-- Embeds `calculate_page_count(aux)`: adds `page_count` to aux, if possible,
as `(record_count - 1) // page_size + 1` (Python floor division). -/
def calculate_page_count (aux : Aux) : Aux :=
  match aux.record_count, aux.page_size with
  | some record_count, some page_size =>
    { aux with page_count := some ((record_count - 1).fdiv page_size + 1) }
  | _, _ => aux

/-- Python `s.endswith("/")`: the last character is `'/'` (code 47). -/
def ends_with_slash (s : String) : Bool :=
  s.data.getLast? == some (Char.ofNat 47)

/-- Embeds `make_url_base(path)`: reads the `API_ROOT` environment variable
(default `"/"`), appends `"/"` when it does not already end in one, and
concatenates the path. The environment lookup is passed explicitly. -/
def make_url_base (path : String) (api_root_env : Option String) : String :=
  let API_ROOT := api_root_env.getD "/"
  let API_ROOT := if ¬ ends_with_slash API_ROOT then API_ROOT ++ "/" else API_ROOT
  API_ROOT ++ path

/-- Embeds `make_page_link(base_url, page_number, page_size)`. -/
def make_page_link (base_url : String) (page_number page_size : Int) : String :=
  s!"{base_url}?page_number={page_number}&page_size={page_size}"

/-- Embeds `make_page_links(aux, url_base)`: the links dict, in insertion order.
Raises the base `TorguapiError` when `page_number` is present without
`page_size`. -/
def make_page_links (aux : Aux) (url_base : String) :
    Except TorguapiErr (List (String × String)) :=
  match aux.page_number with
  | none => .ok [("self", url_base)]
  | some page_number =>
    match aux.page_size with
    | none => .error (.internalError "page_size param missing")
    | some page_size =>
      let links := [("self", make_page_link url_base page_number page_size)]
      match aux.page_count with
      | none => .ok links
      | some page_count =>
        let links :=
          if page_number > 1 then
            links ++ [("previous", make_page_link url_base (page_number - 1) page_size)]
          else links
        let links :=
          if page_number < page_count then
            links ++ [("next", make_page_link url_base (page_number + 1) page_size)]
          else links
        .ok links

/-- Embeds `make_meta(aux)`: copies page_count / record_count when present. -/
def make_meta (aux : Aux) : List (String × Int) :=
  (match aux.page_count with
   | some pc => [("page_count", pc)]
   | none => []) ++
  (match aux.record_count with
   | some rc => [("record_count", rc)]
   | none => [])

/-- The fixed header set attached by `make_torguapi_json`. -/
def torguapi_headers : List (String × String) :=
  [("Content-Type", "application/vnd.api+json"),
   ("Access-Control-Allow-Headers", "Content-Type"),
   ("Access-Control-Allow-Origin", "*"),
   ("Access-Control-Allow-Methods", "GET")]

/-- The reply dict: headers, statusCode, serialized body (kept as a
`Json` tree). -/
structure Reply where
  headers : List (String × String)
  statusCode : Int
  body : Json

/-- Embeds `make_torguapi_json(status_code, body)`: raises the base error when
either argument is `None`. -/
def make_torguapi_json (status_code : Option Int) (body : Option Json) :
    Except TorguapiErr Reply :=
  match status_code with
  | none => .error (.internalError "status_code must be specified")
  | some sc =>
    match body with
    | none => .error (.internalError "body must be specified")
    | some b => .ok { headers := torguapi_headers, statusCode := sc, body := b }

/-- Embeds `torguapi_http_error(status_code, detail)`: the JSON:API error
envelope. `HTTPStatus` and plain int inputs both render the numeric value,
so the status is carried as an `Int`. -/
def torguapi_http_error (status_code : Int) (detail : Option String) :
    Except TorguapiErr Reply :=
  let status := toString status_code
  let error :=
    [("status", Json.str status)] ++
    (match detail with
     | some d => [("detail", Json.str d)]
     | none => [])
  let errors := Json.obj [("errors", Json.arr [Json.obj error])]
  make_torguapi_json (some status_code) (some errors)

/-- Embeds `torguapi_result(result, links, meta)`: a pandas table is embedded as
its list of records; `result.empty` is emptiness of that list;
`HTTPStatus.OK` is 200. -/
def torguapi_result (result : List Json) (links : List (String × String))
    (meta : Option (List (String × Int))) : Except TorguapiErr Reply :=
  if result.isEmpty then torguapi_http_error 404 none
  else
    let body := [("data", Json.arr result),
                 ("links", Json.obj (links.map fun p => (p.1, Json.str p.2)))]
    let body :=
      match meta with
      | some m =>
        if m.length > 0 then body ++ [("meta", Json.obj (m.map fun p => (p.1, Json.num p.2)))]
        else body
      | none => body
    make_torguapi_json (some 200) (some (Json.obj body))

/-- Whether a built links dict contains a given key (false on an error
result). -/
def links_has_key (r : Except TorguapiErr (List (String × String)))
    (k : String) : Bool :=
  match r with
  | .ok links => links.any fun p => p.1 == k
  | .error _ => false

/-- Lookup of a key in a built links dict. -/
def links_lookup (r : Except TorguapiErr (List (String × String)))
    (k : String) : Option String :=
  match r with
  | .ok links => (links.find? fun p => p.1 == k).map fun p => p.2
  | .error _ => none


/-! ### Arithmetic helper lemmas -/

/-- Python floor division `(r - 1) // s + 1` is the ceiling of `r / s`
for `r ≥ 1`, `s ≥ 1`. -/
theorem fdiv_succ_eq_ceil (r s : Int) (hs : 1 ≤ s) :
    (r - 1).fdiv s + 1 = ⌈(r : ℚ) / (s : ℚ)⌉ := by
  have hs0 : (0:Int) < s := hs
  have hfd : (r - 1).fdiv s = (r - 1) / s := Int.fdiv_eq_ediv _ (le_of_lt hs0)
  set q := (r - 1) / s with hq
  have hmod : s * q + (r - 1) % s = r - 1 := Int.ediv_add_emod (r - 1) s
  have hm0 : 0 ≤ (r - 1) % s := Int.emod_nonneg _ (by omega)
  have hms : (r - 1) % s < s := Int.emod_lt_of_pos _ hs0
  have h1 : s * q < r := by linarith
  have h2 : r ≤ s * q + s := by linarith
  rw [hfd]
  symm
  rw [Int.ceil_eq_iff]
  have hsQ : (0:ℚ) < (s:ℚ) := by exact_mod_cast hs0
  have h1Q : (s:ℚ) * (q:ℚ) < (r:ℚ) := by exact_mod_cast h1
  have h2Q : (r:ℚ) ≤ (s:ℚ) * (q:ℚ) + (s:ℚ) := by exact_mod_cast h2
  constructor
  · rw [lt_div_iff₀ hsQ]
    push_cast
    nlinarith [h1Q]
  · rw [div_le_iff₀ hsQ]
    push_cast
    nlinarith [h2Q]

/-- Python floor division rounds `-1 // s` to `-1` for every `s ≥ 1`. -/
theorem neg_one_fdiv_pos (s : Int) (hs : 1 ≤ s) : (-1 : Int).fdiv s = -1 := by
  match s, hs with
  | Int.ofNat (k+1), _ =>
    show Int.fdiv (Int.negSucc 0) (Int.ofNat (k+1)) = Int.negSucc 0
    unfold Int.fdiv
    simp
  | Int.ofNat 0, hs => exact absurd hs (by decide)
  | Int.negSucc n, hs =>
    rw [Int.negSucc_eq] at hs
    exact absurd hs (by omega)

/-! ### Claims about `calculate_page_count` -/

/-- C1: for every pagination context containing `record_count = r ≥ 1` and
`page_size = s ≥ 1`, `calculate_page_count` sets `page_count` to
`(r - 1) // s + 1`, which equals `ceil(r / s)`. -/
theorem claim_C1_page_count_is_ceil (aux : Aux) (r s : Int)
    (hr : aux.record_count = some r) (hs : aux.page_size = some s)
    (_hr1 : 1 ≤ r) (hs1 : 1 ≤ s) :
    (calculate_page_count aux).page_count = some ((r - 1).fdiv s + 1) ∧
    (r - 1).fdiv s + 1 = ⌈(r : ℚ) / (s : ℚ)⌉ := by
  refine ⟨?_, fdiv_succ_eq_ceil r s hs1⟩
  unfold calculate_page_count
  rw [hr, hs]

/-- Witness for C1 at `record_count = 5`, `page_size = 2`. -/
theorem claim_C1_witness :
    (calculate_page_count
        { page_size := some 2, record_count := some 5 }).page_count
      = some (((5:Int) - 1).fdiv 2 + 1) ∧
    ((5:Int) - 1).fdiv 2 + 1 = ⌈(5 : ℚ) / (2 : ℚ)⌉ :=
  claim_C1_page_count_is_ceil _ 5 2 rfl rfl (by decide) (by decide)

/-- C6: for every pagination context with `record_count = 0` and
`page_size = s ≥ 1` present, `calculate_page_count` sets `page_count` to
`(0 - 1) // s + 1`, which is `0` by floor division of the negative
numerator. -/
theorem claim_C6_zero_record_count (aux : Aux) (s : Int)
    (hr : aux.record_count = some 0) (hs : aux.page_size = some s)
    (hs1 : 1 ≤ s) :
    (calculate_page_count aux).page_count = some (((0:Int) - 1).fdiv s + 1) ∧
    ((0:Int) - 1).fdiv s + 1 = 0 := by
  constructor
  · unfold calculate_page_count
    rw [hr, hs]
  · have h1 : ((0:Int) - 1) = -1 := by norm_num
    rw [h1, neg_one_fdiv_pos s hs1]
    norm_num

/-- Witness for C6 at `record_count = 0`, `page_size = 3`. -/
theorem claim_C6_witness :
    (calculate_page_count
        { page_size := some 3, record_count := some 0 }).page_count
      = some (((0:Int) - 1).fdiv 3 + 1) ∧
    ((0:Int) - 1).fdiv 3 + 1 = 0 :=
  claim_C6_zero_record_count _ 3 rfl rfl (by decide)

/-! ### Claims about the envelope builder -/

/-- C4: for every empty result set and all `links` / `meta` arguments,
`torguapi_result` returns exactly the envelope built by
`torguapi_http_error 404`. -/
theorem claim_C4_empty_result_404 (links : List (String × String))
    (meta : Option (List (String × Int))) :
    torguapi_result [] links meta = torguapi_http_error 404 none := rfl

/-! ### Claims about `make_url_base` -/

/-- Removal of every trailing slash, used to word the spec's "exactly one
trailing slash". -/
def rstrip_slashes (s : String) : String :=
  String.mk (s.data.reverse.dropWhile (fun c => c == Char.ofNat 47)).reverse

/-- Spec-side reading of the base-URL contract, for comparison with the
code: the spec words it as api_root "with exactly one trailing slash"
concatenated with the path. -/
def spec_url_base (path : String) (api_root_env : Option String) : String :=
  let root := api_root_env.getD "/"
  rstrip_slashes root ++ "/" ++ path

/-- C7 counterexample: for `API_ROOT = "a//"` the code keeps both trailing
slashes and produces a doubled slash at the junction, so the result is not
api_root-with-exactly-one-trailing-slash followed by the path. -/
theorem claim_C7_counterexample :
    make_url_base "p" (some "a//") = "a//p" ∧
    spec_url_base "p" (some "a//") = "a/p" ∧
    make_url_base "p" (some "a//") ≠ spec_url_base "p" (some "a//") := by
  decide

/-- C7 (amended): `make_url_base` appends `"/"` to `API_ROOT` exactly when
it does not already end in one (guaranteeing at least one trailing slash,
without collapsing extras), then concatenates the path; `API_ROOT`
defaults to `"/"` when unset, and a root ending in a single `"/"` yields
no doubled slash at the junction. -/
theorem claim_C7_url_base (path root : String) :
    make_url_base path none = "/" ++ path ∧
    (ends_with_slash root = true → make_url_base path (some root) = root ++ path) ∧
    (ends_with_slash root = false →
      make_url_base path (some root) = root ++ "/" ++ path) := by
  have hroot : ends_with_slash "/" = true := by decide
  refine ⟨by simp [make_url_base, hroot], ?_, ?_⟩ <;>
    intro h <;> simp [make_url_base, h]

/-- Witness for C7 (amended) at `path = "p"`, roots `"r/"` and `"r"`. -/
theorem claim_C7_witness :
    make_url_base "p" none = "/" ++ "p" ∧
    make_url_base "p" (some "r/") = "r/" ++ "p" ∧
    make_url_base "p" (some "r") = "r" ++ "/" ++ "p" :=
  ⟨(claim_C7_url_base "p" "r").1,
   (claim_C7_url_base "p" "r/").2.1 (by decide),
   (claim_C7_url_base "p" "r").2.2 (by decide)⟩


/-! ### Claims about `make_page_links` -/

/-- C8: for every pagination context without `page_number`,
`make_page_links` returns exactly the one-entry map `{self: base_url}`. -/
theorem claim_C8_no_page_number (aux : Aux) (base : String)
    (h : aux.page_number = none) :
    make_page_links aux base = .ok [("self", base)] := by
  unfold make_page_links
  rw [h]

/-- Witness for C8 on the empty context. -/
theorem claim_C8_witness :
    make_page_links (⟨none, none, none, none⟩ : Aux) "/b"
      = .ok [("self", "/b")] :=
  claim_C8_no_page_number _ "/b" rfl


/-- Structural description of `make_page_links` when `page_number` and
`page_size` are both present. -/
theorem make_page_links_eq (aux : Aux) (base : String) (pn ps : Int)
    (hpn : aux.page_number = some pn) (hps : aux.page_size = some ps) :
    make_page_links aux base = .ok (
      [("self", make_page_link base pn ps)] ++
      (match aux.page_count with
       | none => []
       | some pc =>
         (if pn > 1 then [("previous", make_page_link base (pn - 1) ps)] else []) ++
         (if pn < pc then [("next", make_page_link base (pn + 1) ps)] else []))) := by
  unfold make_page_links
  rw [hpn, hps]
  cases hpc : aux.page_count with
  | none => simp
  | some pc =>
    by_cases h1 : pn > 1 <;> by_cases h2 : pn < pc <;> simp [h1, h2]

/-- C2 counterexample: with `page_number = 2 > 1` and `page_size = 10` but
no `page_count`, the links map contains no `previous` entry, so the
previous link does depend on `page_count` being present. -/
theorem claim_C2_counterexample :
    links_has_key
      (make_page_links ⟨some 10, some 2, none, none⟩ "/b") "previous" = false ∧
    (1 : Int) < 2 := by
  constructor
  · rfl
  · decide

/-- C2 (amended): for every pagination context with `page_number` and
`page_size` present, the links map contains a `previous` entry iff
`page_count` is present in the context and `page_number > 1`. -/
theorem claim_C2_previous_iff (aux : Aux) (base : String) (pn ps : Int)
    (hpn : aux.page_number = some pn) (hps : aux.page_size = some ps) :
    (links_has_key (make_page_links aux base) "previous" = true ↔
      ((∃ pc, aux.page_count = some pc) ∧ 1 < pn)) ∧
    (1 < pn → ∀ pc, aux.page_count = some pc →
      links_lookup (make_page_links aux base) "previous"
        = some (make_page_link base (pn - 1) ps)) := by
  rw [make_page_links_eq aux base pn ps hpn hps]
  cases hpc : aux.page_count with
  | none => simp [links_has_key, links_lookup]
  | some pc =>
    by_cases h1 : pn > 1 <;> by_cases h2 : pn < pc <;>
      simp [links_has_key, links_lookup, h1, h2, List.find?]

/-- Witness for C2 (amended) at `page_number = 3`, `page_size = 7`,
`page_count = 5`. -/
theorem claim_C2_witness :
    (links_has_key
        (make_page_links ⟨some 7, some 3, some 5, none⟩ "/b") "previous" = true ↔
      ((∃ pc, (⟨some 7, some 3, some 5, none⟩ : Aux).page_count = some pc) ∧
        (1:Int) < 3)) ∧
    links_lookup
        (make_page_links ⟨some 7, some 3, some 5, none⟩ "/b") "previous"
      = some (make_page_link "/b" (3 - 1) 7) :=
  ⟨(claim_C2_previous_iff ⟨some 7, some 3, some 5, none⟩ "/b" 3 7 rfl rfl).1,
   (claim_C2_previous_iff ⟨some 7, some 3, some 5, none⟩ "/b" 3 7 rfl rfl).2
     (by decide) 5 rfl⟩

/-- C5: for every pagination context with `page_number` and `page_size`
present, the links map contains a `next` entry iff `page_count` is present
and `page_number < page_count`; when emitted, `next` points at
`page_number + 1`. -/
theorem claim_C5_next_iff (aux : Aux) (base : String) (pn ps : Int)
    (hpn : aux.page_number = some pn) (hps : aux.page_size = some ps) :
    (links_has_key (make_page_links aux base) "next" = true ↔
      (∃ pc, aux.page_count = some pc ∧ pn < pc)) ∧
    (∀ pc, aux.page_count = some pc → pn < pc →
      links_lookup (make_page_links aux base) "next"
        = some (make_page_link base (pn + 1) ps)) := by
  rw [make_page_links_eq aux base pn ps hpn hps]
  cases hpc : aux.page_count with
  | none => simp [links_has_key, links_lookup]
  | some pc =>
    by_cases h1 : pn > 1 <;> by_cases h2 : pn < pc <;>
      simp [links_has_key, links_lookup, h1, h2, List.find?] <;> omega

/-- Witness for C5 at `page_number = 3`, `page_size = 7`, `page_count = 5`. -/
theorem claim_C5_witness :
    (links_has_key
        (make_page_links ⟨some 7, some 3, some 5, none⟩ "/b") "next" = true ↔
      (∃ pc, (⟨some 7, some 3, some 5, none⟩ : Aux).page_count = some pc ∧
        (3:Int) < pc)) ∧
    links_lookup
        (make_page_links ⟨some 7, some 3, some 5, none⟩ "/b") "next"
      = some (make_page_link "/b" (3 + 1) 7) :=
  ⟨(claim_C5_next_iff ⟨some 7, some 3, some 5, none⟩ "/b" 3 7 rfl rfl).1,
   (claim_C5_next_iff ⟨some 7, some 3, some 5, none⟩ "/b" 3 7 rfl rfl).2
     5 rfl (by decide)⟩


/-! ### Claims about the parameter parser -/

/-- C9: every context returned successfully by
`torguapi_get_page_parameters` contains `page_size`; consequently
`make_page_links` applied to any parser output never raises the internal
"page_size param missing" error. -/
theorem claim_C9_parser_invariant (qp : QueryParams) (aux : Aux) (base : String)
    (h : torguapi_get_page_parameters qp = Except.ok aux) :
    (∃ s, aux.page_size = some s) ∧
    ∃ links, make_page_links aux base = Except.ok links := by
  simp only [torguapi_get_page_parameters] at h
  split at h
  · exact absurd h (by simp)
  · split at h
    · exact absurd h (by simp)
    · split at h
      · injection h with h'
        subst h'
        exact ⟨⟨_, rfl⟩, _, rfl⟩
      · split at h
        · exact absurd h (by simp)
        · injection h with h'
          subst h'
          exact ⟨⟨_, rfl⟩, _, rfl⟩

/-- Witness for C9 on the empty query mapping. -/
theorem claim_C9_witness :
    (∃ s, ({ page_size := some (strToInt "100") } : Aux).page_size = some s) ∧
    ∃ links,
      make_page_links ({ page_size := some (strToInt "100") } : Aux) "/b"
        = Except.ok links :=
  claim_C9_parser_invariant ⟨none, none⟩ _ "/b" rfl

/-- C10: the query value `page_number = "0"` is accepted by the parser and
yields `page_number = 0`; and for every context with `page_number = 0`,
`page_size` present and `page_count ≥ 1` present, `make_page_links`
returns self plus a next link at page 1, with no previous link. -/
theorem claim_C10_page_number_zero (base : String) (aux : Aux) (ps pc : Int)
    (hpn : aux.page_number = some 0) (hps : aux.page_size = some ps)
    (hpc : aux.page_count = some pc) (hpc1 : 1 ≤ pc) :
    torguapi_get_page_parameters { page_size := none, page_number := some "0" }
      = Except.ok { page_size := some 100, page_number := some 0 } ∧
    make_page_links aux base
      = Except.ok [("self", make_page_link base 0 ps),
                   ("next", make_page_link base 1 ps)] := by
  refine ⟨rfl, ?_⟩
  rw [make_page_links_eq aux base 0 ps hpn hps, hpc]
  have h1 : ¬ (0:Int) > 1 := by norm_num
  have h2 : (0:Int) < pc := by omega
  simp [h1, h2]

/-- Witness for C10 at `page_size = 10`, `page_count = 3`. -/
theorem claim_C10_witness :
    torguapi_get_page_parameters { page_size := none, page_number := some "0" }
      = Except.ok { page_size := some 100, page_number := some 0 } ∧
    make_page_links (⟨some 10, some 0, some 3, none⟩ : Aux) "/b"
      = Except.ok [("self", make_page_link "/b" 0 10),
                   ("next", make_page_link "/b" 1 10)] :=
  claim_C10_page_number_zero "/b" _ 10 3 rfl rfl rfl (by decide)

/-- C3: `page_size` defaults to `"100"` when absent; a successful parse of
`page_size = s` yields the integer value of `s`; a numeric `s ≥ 1` with no
`page_number` succeeds; a non-numeric `s`, or one parsing below 1, raises
`TorguapiInvalidRequest`. -/
theorem claim_C3_page_size_parsing (pn : Option String) (s : String) :
    (torguapi_get_page_parameters ⟨none, pn⟩
       = torguapi_get_page_parameters ⟨some "100", pn⟩) ∧
    (∀ aux, torguapi_get_page_parameters ⟨some s, pn⟩ = Except.ok aux →
       aux.page_size = some (strToInt s)) ∧
    (isnumeric s = true → 1 ≤ strToInt s →
       ∃ aux, torguapi_get_page_parameters ⟨some s, none⟩ = Except.ok aux ∧
         aux.page_size = some (strToInt s)) ∧
    (isnumeric s = false ∨ strToInt s < 1 →
       ∃ msg, torguapi_get_page_parameters ⟨some s, pn⟩
         = Except.error (.invalidRequest msg)) := by
  refine ⟨rfl, ?_, ?_, ?_⟩
  · intro aux h
    simp only [torguapi_get_page_parameters] at h
    split at h
    · exact absurd h (by simp)
    · split at h
      · exact absurd h (by simp)
      · split at h
        · injection h with h'
          subst h'
          rfl
        · split at h
          · exact absurd h (by simp)
          · injection h with h'
            subst h'
            rfl
  · intro hnum hge
    have hlt : ¬ strToInt s < 1 := not_lt.mpr hge
    exact ⟨{ page_size := some (strToInt s) },
           by simp [torguapi_get_page_parameters, hnum, hlt], rfl⟩
  · intro hbad
    by_cases hnum : isnumeric s = true
    · have hlt : strToInt s < 1 := by
        rcases hbad with hb | hb
        · rw [hnum] at hb
          cases hb
        · exact hb
      exact ⟨s!"Invalid page_size {s}",
             by simp [torguapi_get_page_parameters, hnum, hlt]⟩
    · have hnum' : ¬ isnumeric s := by simpa using hnum
      exact ⟨s!"Invalid page_size {s}",
             by simp [torguapi_get_page_parameters, hnum']⟩

/-- Witness for C3 at `s = "7"` (accepted) and `s = "0"` (rejected). -/
theorem claim_C3_witness :
    (∃ aux, torguapi_get_page_parameters ⟨some "7", none⟩ = Except.ok aux ∧
       aux.page_size = some (strToInt "7")) ∧
    ∃ msg, torguapi_get_page_parameters ⟨some "0", none⟩
      = Except.error (.invalidRequest msg) :=
  ⟨(claim_C3_page_size_parsing none "7").2.2.1 (by decide) (by decide),
   (claim_C3_page_size_parsing none "0").2.2.2 (Or.inr (by decide))⟩

end Torguapi
